import Mathlib

/-!
Verification of the ArxivFinder paper-notification script
(src/paper_finder.py) against its natural-language specification.

The Python program is shallowly embedded as follows.

State store: the persisted JSON file is modelled by FileState: absent,
corrupt (any file whose contents fail to parse as a JSON object of string
lists, including invalid JSON), or valid with its decoded contents as an
association list from group id to a list of paper ids.  In-memory state
(a Python dict from group id to a set of already-notified paper ids) is
an association list from String to Finset String; Python dict get / set
become dictGet / dictSet below (assignment replaces the first binding of
the key or appends a fresh one, matching dict semantics for the unique
keys the program produces).  load_state and save_state are translated
from the functions of the same names: both catch all errors and return
plain values, so the embedded functions are total.

Search adapter: search_new_papers iterates the lazy result generator of
the arxiv library inside a try block.  The generator performs network
requests and feed parsing while it is being iterated, so an exception can
be raised between results; the except clause stops the iteration and the
function returns the list accumulated so far.  The stream of the external
API is therefore modelled as a list of Option ArxivResult: some r is a
result yielded by the generator, none is the point where a transport or
parsing failure raises.  Timestamps are seconds (Int) in UTC; the current
time and the API stream are explicit parameters.

Notifier and orchestrator: send_email is translated with its transport
outcome as an explicit parameter (success, authentication error, other
error); all its error paths return false rather than raising.  The body
of the while loop of the main block is runCycle: it folds processGroup
(one iteration of the per-group for loop) over the configured groups,
each paired with that cycle inputs (API stream, email outcome), threading
the state dict and the state_changed flag, and counting send_email calls.
Configuration parsing of the module top level is parseConfig; the only
statement there that can raise is int(os.getenv("SMTP_PORT", 587)), which
is modelled by returning Except.error.
-/

namespace PaperFinder

/-- One record produced by the arxiv library for a query result.  Only the
fields the program reads for filtering and state update are modelled;
published and updated are UTC timestamps in seconds. -/
structure ArxivResult where
  entry_id : String
  title : String
  published : Int
  updated : Int
deriving DecidableEq, Repr

/-- Helper for paperId: scan the characters, resetting the accumulated
segment at every slash; what remains at the end is the last
slash-separated segment (empty after a trailing slash, the whole string
when no slash occurs), exactly Python s.split(slash)[-1]. -/
def paperIdAux : List Char → List Char → List Char
  | [], acc => acc
  | c :: rest, acc =>
      if c = '/' then paperIdAux rest []
      else paperIdAux rest (acc ++ [c])

/-- Python result.entry_id.split(slash)[-1]: the last slash-separated
segment of the entry link, used as the paper identifier. -/
def paperId (entry_id : String) : String :=
  String.mk (paperIdAux entry_id.toList [])

/-- The persisted state file: absent, present but unparseable (invalid
JSON, or JSON of the wrong shape), or a well-formed JSON object mapping
group ids to lists of paper id strings. -/
inductive FileState where
  | absent : FileState
  | corrupt : FileState
  | valid : List (String × List String) → FileState
deriving DecidableEq

/-- In-memory seen state: Python dict from group id to set of paper ids. -/
def SeenState : Type := List (String × Finset String)

instance : DecidableEq SeenState := by
  unfold SeenState
  infer_instance

/-- Lookup of the first binding of a key in an association list
(Python dict lookup). -/
def dictFind? {α : Type} : List (String × α) → String → Option α
  | [], _ => none
  | (k, v) :: rest, key => if k = key then some v else dictFind? rest key

/-- Python dict assignment: replace the first binding of the key, or
append a fresh binding. -/
def dictSet {α : Type} : List (String × α) → String → α → List (String × α)
  | [], key, v => [(key, v)]
  | (k, w) :: rest, key, v =>
      if k = key then (key, v) :: rest else (k, w) :: dictSet rest key v

/-- Python current_state.get(group_id, set()): the seen set of a group,
defaulting to the empty set. -/
def dictGet (st : SeenState) (key : String) : Finset String :=
  (dictFind? st key).getD ∅

/-- load_state: absent file gives an empty dict and existed = false;
a file that fails to parse is caught (json.JSONDecodeError or any other
exception) and also gives an empty dict and existed = false; a
well-formed file is decoded, each list becoming a set. -/
def load_state : FileState → SeenState × Bool
  | FileState.absent => ([], false)
  | FileState.corrupt => ([], false)
  | FileState.valid data => (data.map (fun p => (p.1, p.2.toFinset)), true)

/-- save_state: each set is serialized as its sorted list of elements and
the resulting JSON object replaces the file. -/
def save_state (st : SeenState) : FileState :=
  FileState.valid (st.map (fun p => (p.1, p.2.sort (· ≤ ·))))

/-- CHECK_INTERVAL_HOURS = 24 of the source. -/
def CHECK_INTERVAL_HOURS : Int := 24

/-- The per-group search window of the cycle loop, in seconds:
timedelta(days = 7) when the state file did not exist, else
timedelta(hours = CHECK_INTERVAL_HOURS). -/
def search_window_of (state_file_existed : Bool) : Int :=
  if ¬ state_file_existed then 7 * 24 * 60 * 60
  else CHECK_INTERVAL_HOURS * 60 * 60

/-- The conjunctive full-text query string sent to the API:
" AND ".join of all, colon, quoted keyword for each keyword. -/
def arxivQuery (keywords : List String) : String :=
  String.intercalate " AND " (keywords.map (fun k => "all:\"" ++ k ++ "\""))

/-- The inclusion test of the for loop of search_new_papers: the result is
appended iff (publish_time at or after the cutoff, or update_time at or
after the cutoff) and its paper id is not in the seen set. -/
def includeCandidate (cutoff : Int) (seen_ids : Finset String)
    (r : ArxivResult) : Bool :=
  (decide (cutoff ≤ r.published) || decide (cutoff ≤ r.updated))
    && decide (paperId r.entry_id ∉ seen_ids)

/-- The for loop over the lazy result generator: each some r is filtered
and accumulated; a none is an exception raised by the generator, which
aborts the iteration; the except clause swallows it, so whatever was
accumulated before the failure is what the function returns. -/
def searchLoop (cutoff : Int) (seen_ids : Finset String) :
    List (Option ArxivResult) → List ArxivResult
  | [] => []
  | none :: _ => []
  | some r :: rest =>
      if includeCandidate cutoff seen_ids r
      then r :: searchLoop cutoff seen_ids rest
      else searchLoop cutoff seen_ids rest

/-- search_new_papers: cutoff_date is the current UTC time minus the
search window; the result stream of the external API (a parameter of the
model) is folded by searchLoop.  All failure paths are caught inside, so
the function always returns a plain list. -/
def search_new_papers (keywords : List String) (seen_ids : Finset String)
    (search_window : Int) (now : Int)
    (events : List (Option ArxivResult)) : List ArxivResult :=
  let _query := arxivQuery keywords
  let cutoff_date := now - search_window
  searchLoop cutoff_date seen_ids events

/-- The results the generator yields before its first failure (all of
them when no failure occurs). -/
def resultsBeforeFailure : List (Option ArxivResult) → List ArxivResult
  | [] => []
  | none :: _ => []
  | some r :: rest => r :: resultsBeforeFailure rest

/-- Outcome of one SMTP delivery attempt, as observed by send_email. -/
inductive SmtpOutcome where
  | success : SmtpOutcome
  | authError : SmtpOutcome
  | failure : SmtpOutcome
deriving DecidableEq

/-- Python truthiness of an optional string: None and the empty string
are falsy. -/
def truthy : Option String → Bool
  | none => false
  | some s => s ≠ ""

/-- send_email: returns false when any of sender, password, receiver,
server, port is falsy (the all([...]) guard); otherwise attempts
delivery, returning true on success and false on SMTPAuthenticationError
or any other exception.  Every path returns a Bool; nothing escapes. -/
def send_email (subject body : String)
    (sender password receiver : Option String) (server : String)
    (port : Int) (outcome : SmtpOutcome) : Bool :=
  let _ := subject
  let _ := body
  if truthy sender && truthy password && truthy receiver
      && (server != "") && (port != 0) then
    match outcome with
    | SmtpOutcome.success => true
    | SmtpOutcome.authError => false
    | SmtpOutcome.failure => false
  else false

/-- One entry of KEYWORD_GROUPS: the internal id (group_ plus the matched
suffix), the original env var name, the parsed keyword list and the
original value string. -/
structure GroupInfo where
  id : String
  name : String
  keywords : List String
  keywords_string : String
deriving DecidableEq

/-- The external inputs one group iteration consumes in a given cycle:
the API result stream and the outcome of the send_email call (already
collapsed to the Bool the orchestrator branches on). -/
structure GroupOracle where
  events : List (Option ArxivResult)
  emailSent : Bool
deriving DecidableEq

/-- The set of ids of the papers of one digest, as built by the inner
for loop of the main block. -/
def newlyFoundIds (papers : List ArxivResult) : Finset String :=
  (papers.map (fun p => paperId p.entry_id)).toFinset

/-- One iteration of the per-group for loop of the main block: look up
the seen set, search with the window chosen from state_file_existed, and
when the candidate list is non-empty send one email; on success bind the
group id to the union of its seen set and the new ids and set
state_changed, on failure leave the state untouched.  The third component
counts send_email calls of the iteration. -/
def processGroup (state_file_existed : Bool) (now : Int) (g : GroupInfo)
    (orc : GroupOracle) (current_state : SeenState) (state_changed : Bool) :
    SeenState × Bool × Nat :=
  let group_seen_ids := dictGet current_state g.id
  let search_window := search_window_of state_file_existed
  let new_papers :=
    search_new_papers g.keywords group_seen_ids search_window now orc.events
  if new_papers.isEmpty then (current_state, state_changed, 0)
  else if orc.emailSent then
    (dictSet current_state g.id (group_seen_ids ∪ newlyFoundIds new_papers),
     true, 1)
  else (current_state, state_changed, 1)

/-- The per-group for loop folded over all configured groups, threading
the state dict and the state_changed flag and summing the send_email
calls. -/
def runCycleAux (state_file_existed : Bool) (now : Int) :
    List (GroupInfo × GroupOracle) → SeenState → Bool → SeenState × Bool × Nat
  | [], st, changed => (st, changed, 0)
  | (g, orc) :: rest, st, changed =>
      let step := processGroup state_file_existed now g orc st changed
      let cont := runCycleAux state_file_existed now rest step.1 step.2.1
      (cont.1, cont.2.1, step.2.2 + cont.2.2)

/-- One cycle body after load_state: process every group starting from
the loaded state with state_changed = false. -/
def runCycle (state_file_existed : Bool) (now : Int) (st0 : SeenState)
    (groups : List (GroupInfo × GroupOracle)) : SeenState × Bool × Nat :=
  runCycleAux state_file_existed now groups st0 false

/-- The file save_state writes at the end of the cycle: some file exactly
when state_changed is set, none otherwise (save_state is not called). -/
def cycleSavedFile (state_file_existed : Bool) (now : Int) (st0 : SeenState)
    (groups : List (GroupInfo × GroupOracle)) : Option FileState :=
  let r := runCycle state_file_existed now st0 groups
  if r.2.1 then some (save_state r.1) else none

/-- os.getenv over the environment, modelled as an association list of
variable names to values. -/
def getenv (env : List (String × String)) (key : String) : Option String :=
  dictFind? env key

/-- Python str.strip() on a character list: drop whitespace at both
ends. -/
def stripChars (l : List Char) : List Char :=
  ((l.dropWhile Char.isWhitespace).reverse.dropWhile Char.isWhitespace).reverse

/-- Python str.strip(). -/
def strip (s : String) : String :=
  String.mk (stripChars s.toList)

/-- Python str.split(sep) for a one-character separator: the list of
segments between occurrences of sep (a lone empty segment for the empty
string, like Python). -/
def splitOnChar (sep : Char) : List Char → List (List Char)
  | [] => [[]]
  | c :: rest =>
      let r := splitOnChar sep rest
      if c = sep then [] :: r
      else
        match r with
        | [] => [[c]]
        | seg :: segs => (c :: seg) :: segs

/-- Decimal digit parsing: some value iff the character list is non-empty
and all digits. -/
def digitsToNat? (l : List Char) : Option Nat :=
  if !l.isEmpty && l.all Char.isDigit then
    some (l.foldl (fun acc c => 10 * acc + (c.toNat - 48)) 0)
  else none

/-- Python int(s) on a string: optional surrounding whitespace, an
optional sign, then decimal digits; anything else raises ValueError,
modelled as none. -/
def parsePyInt (s : String) : Option Int :=
  match stripChars s.toList with
  | '-' :: rest => (digitsToNat? rest).map (fun n => -(n : Int))
  | '+' :: rest => (digitsToNat? rest).map (fun n => (n : Int))
  | t => (digitsToNat? t).map (fun n => (n : Int))

/-- The regex fullmatch of KEYWORD_GROUP_(backslash w plus) with
re.IGNORECASE on an env var name, returning the captured suffix.  Word
characters are modelled as ASCII alphanumerics and underscore. -/
def keywordGroupSuffix (key : String) : Option String :=
  let cs := key.toList
  let back := cs.drop 14
  if (cs.take 14).map Char.toUpper = "KEYWORD_GROUP_".toList ∧ back ≠ []
      ∧ back.all (fun c => c.isAlphanum || c = '_')
  then some (String.mk back) else none

/-- The keyword parsing of one env value: split on commas, strip each
piece, keep the non-empty ones. -/
def parseKeywords (value : String) : List String :=
  (((splitOnChar ',' value.toList).map
      (fun seg => String.mk (stripChars seg))).filter (fun k => k ≠ ""))

/-- The module-level loop that builds KEYWORD_GROUPS: for every env
entry whose name matches the pattern and whose stripped value and parsed
keyword list are non-empty, bind group_ plus the suffix to the group
record.  This loop cannot raise. -/
def parseKeywordGroups (env : List (String × String)) :
    List (String × GroupInfo) :=
  env.foldl
    (fun acc kv =>
      match keywordGroupSuffix kv.1 with
      | none => acc
      | some suf =>
          if strip kv.2 = "" then acc
          else
            let kws := parseKeywords kv.2
            if kws.isEmpty then acc
            else dictSet acc ("group_" ++ suf)
              { id := "group_" ++ suf, name := kv.1, keywords := kws,
                keywords_string := kv.2 })
    []

/-- The module-level configuration derived from the environment. -/
structure AppConfig where
  keyword_groups : List (String × GroupInfo)
  smtp_server : String
  smtp_port : Int
  sender_email : Option String
  sender_password : Option String
  receiver_email : Option String
deriving DecidableEq

/-- int(os.getenv("SMTP_PORT", 587)): the int default parses to itself;
a present value goes through Python int parsing and may raise. -/
def smtpPortOf (env : List (String × String)) : Option Int :=
  match getenv env "SMTP_PORT" with
  | none => some 587
  | some s => parsePyInt s

/-- The module top level of the source: builds KEYWORD_GROUPS and the
mail settings.  The only statement that can raise an uncaught exception
is the int conversion of SMTP_PORT, modelled as Except.error. -/
def parseConfig (env : List (String × String)) : Except String AppConfig :=
  match smtpPortOf env with
  | none => Except.error "invalid literal for int with base 10: SMTP_PORT"
  | some port =>
      Except.ok
        { keyword_groups := parseKeywordGroups env
          smtp_server := (getenv env "SMTP_SERVER").getD "smtp.gmail.com"
          smtp_port := port
          sender_email := getenv env "SENDER_EMAIL"
          sender_password := getenv env "SENDER_PASSWORD"
          receiver_email := getenv env "RECEIVER_EMAIL" }

/-! Helper lemmas shared by the claim theorems. -/

theorem dictFind?_dictSet {α : Type} (m : List (String × α)) (k : String)
    (v : α) (j : String) :
    dictFind? (dictSet m k v) j = if j = k then some v else dictFind? m j := by
  induction m with
  | nil =>
      by_cases h : j = k
      · subst h
        simp [dictSet, dictFind?]
      · simp [dictSet, dictFind?, h, Ne.symm h]
  | cons p rest ih =>
      obtain ⟨pk, pv⟩ := p
      by_cases hpk : pk = k
      · subst hpk
        by_cases hj : j = pk
        · subst hj
          simp [dictSet, dictFind?]
        · simp [dictSet, dictFind?, hj, Ne.symm hj]
      · by_cases hj : pk = j
        · subst hj
          simp [dictSet, dictFind?, hpk]
        · simp [dictSet, dictFind?, hpk, hj, ih]

theorem dictGet_dictSet (m : SeenState) (k : String) (v : Finset String)
    (j : String) :
    dictGet (dictSet m k v) j = if j = k then v else dictGet m j := by
  unfold dictGet
  rw [dictFind?_dictSet]
  by_cases h : j = k <;> simp [h]

theorem searchLoop_eq_filter (cutoff : Int) (seen : Finset String)
    (events : List (Option ArxivResult)) :
    searchLoop cutoff seen events
      = (resultsBeforeFailure events).filter (includeCandidate cutoff seen) := by
  induction events with
  | nil => rfl
  | cons e rest ih =>
      cases e with
      | none => rfl
      | some r =>
          simp only [searchLoop, resultsBeforeFailure, List.filter]
          by_cases h : includeCandidate cutoff seen r <;> simp [h, ih]

theorem resultsBeforeFailure_map_some (l : List ArxivResult) :
    resultsBeforeFailure (l.map some) = l := by
  induction l with
  | nil => rfl
  | cons r rest ih => simp [resultsBeforeFailure, ih]

theorem mem_searchLoop_not_seen (cutoff : Int) (seen : Finset String)
    (events : List (Option ArxivResult)) (r : ArxivResult)
    (h : r ∈ searchLoop cutoff seen events) : paperId r.entry_id ∉ seen := by
  rw [searchLoop_eq_filter] at h
  have h2 := (List.mem_filter.mp h).2
  simp only [includeCandidate, Bool.and_eq_true, decide_eq_true_eq] at h2
  exact h2.2

/-! Theorems for the claims. -/

/-- C5: load_state returns the empty mapping with existed = false both
when the state file is absent and when it is present but unparseable; it
never raises (the embedded function is total by construction, both
Python paths being inside the try or except arms that return), and the
two cases yield literally the same value. -/
theorem load_absent_corrupt_identical :
    load_state FileState.absent = (([] : SeenState), false) ∧
    load_state FileState.corrupt = (([] : SeenState), false) ∧
    load_state FileState.absent = load_state FileState.corrupt :=
  ⟨rfl, rfl, rfl⟩

/-- C8: saving an in-memory state and loading it back returns the same
state with existed = true: serialization turns each seen set into its
sorted list, and loading turns that list back into the set it came
from. -/
theorem load_save_roundtrip :
    ∀ st : SeenState, load_state (save_state st) = (st, true) := by
  intro st
  simp only [save_state, load_state, List.map_map]
  rw [Prod.mk.injEq]
  refine ⟨?_, rfl⟩
  induction st with
  | nil => rfl
  | cons p rest ih =>
      simp only [List.map_cons, Function.comp_apply, Finset.sort_toFinset,
        Prod.mk.eta]
      rw [ih]

/-- C2: the search window handed to search_new_papers is exactly 7 days
(in seconds) when load_state reported existed = false, and exactly the
fixed 24-hour check interval when it reported existed = true. -/
theorem search_window_selection :
    search_window_of false = 7 * 24 * 60 * 60 ∧
    search_window_of true = 24 * 60 * 60 ∧
    (∀ fs : FileState,
      search_window_of (load_state fs).2
        = if (load_state fs).2 then 24 * 60 * 60 else 7 * 24 * 60 * 60) := by
  refine ⟨rfl, rfl, ?_⟩
  intro fs
  cases fs <;> rfl

/-- C3: a candidate the external API returns (a clean run, every result
delivered) is in the output of search_new_papers iff its published or its
updated timestamp is at or after the cutoff (current time minus the
window) and its paper id is not in the seen set. -/
theorem search_inclusion_iff (keywords : List String) (seen : Finset String)
    (window now : Int) (results : List ArxivResult) (r : ArxivResult)
    (h : r ∈ results) :
    r ∈ search_new_papers keywords seen window now (results.map some) ↔
      ((now - window ≤ r.published ∨ now - window ≤ r.updated)
        ∧ paperId r.entry_id ∉ seen) := by
  unfold search_new_papers
  rw [searchLoop_eq_filter, resultsBeforeFailure_map_some, List.mem_filter]
  simp [includeCandidate, h]

/-- Witness for C3 at a concrete input: a result published at the cutoff
and unseen is included. -/
theorem search_inclusion_iff_witness :
    (⟨"a/1v1", "t", 100, 100⟩ : ArxivResult)
        ∈ search_new_papers ["x"] ∅ 50 100
            ([(⟨"a/1v1", "t", 100, 100⟩ : ArxivResult)].map some) ↔
      (((100 : Int) - 50 ≤ 100 ∨ (100 : Int) - 50 ≤ 100)
        ∧ paperId "a/1v1" ∉ (∅ : Finset String)) :=
  search_inclusion_iff ["x"] ∅ 50 100 [⟨"a/1v1", "t", 100, 100⟩]
    ⟨"a/1v1", "t", 100, 100⟩ (by decide)

/-- C6 counterexample: a transport failure that strikes after the first
result has been yielded leaves that result in the returned list, so the
search does not return an empty sequence for every failing call. -/
theorem search_failure_partial_cex :
    search_new_papers ["x"] ∅ 50 100
        [some ⟨"a/1v1", "t", 100, 100⟩, none]
      = [⟨"a/1v1", "t", 100, 100⟩] ∧
    search_new_papers ["x"] ∅ 50 100
        [some ⟨"a/1v1", "t", 100, 100⟩, none] ≠ [] := by
  exact ⟨by decide, by decide⟩

/-- C6 amended: a transport or parsing failure during the search call is
caught and never propagated, and the call returns exactly the candidates
accumulated from the results delivered before the failure: an empty list
when the failure strikes before the first result, a possibly non-empty
partial list otherwise. -/
theorem search_failure_caught (keywords : List String) (seen : Finset String)
    (window now : Int) (events : List (Option ArxivResult)) :
    search_new_papers keywords seen window now events
      = search_new_papers keywords seen window now
          ((resultsBeforeFailure events).map some) ∧
    search_new_papers keywords seen window now (none :: events) = [] := by
  constructor
  · unfold search_new_papers
    rw [searchLoop_eq_filter, searchLoop_eq_filter,
      resultsBeforeFailure_map_some]
  · rfl

theorem mem_search_not_seen (keywords : List String) (seen : Finset String)
    (window now : Int) (events : List (Option ArxivResult)) (r : ArxivResult)
    (h : r ∈ search_new_papers keywords seen window now events) :
    paperId r.entry_id ∉ seen := by
  unfold search_new_papers at h
  exact mem_searchLoop_not_seen (now - window) seen events r h

theorem processGroup_mono (e : Bool) (now : Int) (g : GroupInfo)
    (orc : GroupOracle) (st : SeenState) (ch : Bool) (k pid : String)
    (h : pid ∈ dictGet st k) :
    pid ∈ dictGet (processGroup e now g orc st ch).1 k := by
  simp only [processGroup]
  split
  · exact h
  · split
    · rw [dictGet_dictSet]
      split
      · next heq =>
          rw [heq] at h
          exact Finset.mem_union_left _ h
      · exact h
    · exact h

theorem runCycleAux_mono (e : Bool) (now : Int) :
    ∀ (gs : List (GroupInfo × GroupOracle)) (st : SeenState) (ch : Bool)
      (k pid : String), pid ∈ dictGet st k →
      pid ∈ dictGet (runCycleAux e now gs st ch).1 k := by
  intro gs
  induction gs with
  | nil => intro st ch k pid h; exact h
  | cons p rest ih =>
      intro st ch k pid h
      obtain ⟨g, orc⟩ := p
      simp only [runCycleAux]
      exact ih _ _ k pid (processGroup_mono e now g orc st ch k pid h)

theorem runCycleAux_quiet (e : Bool) (now : Int) :
    ∀ (gs : List (GroupInfo × GroupOracle)) (st : SeenState) (ch : Bool),
      (∀ p ∈ gs, search_new_papers p.1.keywords (dictGet st p.1.id)
          (search_window_of e) now p.2.events = []) →
      runCycleAux e now gs st ch = (st, ch, 0) := by
  intro gs
  induction gs with
  | nil => intro st ch _; rfl
  | cons p rest ih =>
      intro st ch h
      obtain ⟨g, orc⟩ := p
      have hg : search_new_papers g.keywords (dictGet st g.id)
          (search_window_of e) now orc.events = [] := by
        simpa using h (g, orc) (List.mem_cons_self _ _)
      have hstep : processGroup e now g orc st ch = (st, ch, 0) := by
        simp [processGroup, hg]
      have hrest := ih st ch (fun q hq => h q (List.mem_cons_of_mem _ hq))
      simp [runCycleAux, hstep, hrest]

theorem runCycleAux_changed (e : Bool) (now : Int) :
    ∀ (gs : List (GroupInfo × GroupOracle)) (st : SeenState),
      (runCycleAux e now gs st false).2.1 = true →
      ∃ k, dictGet (runCycleAux e now gs st false).1 k ≠ dictGet st k := by
  intro gs
  induction gs with
  | nil =>
      intro st h
      exact absurd h (by simp [runCycleAux])
  | cons p rest ih =>
      intro st h
      obtain ⟨g, orc⟩ := p
      by_cases hemp : (search_new_papers g.keywords (dictGet st g.id)
          (search_window_of e) now orc.events).isEmpty
      · have hstep : processGroup e now g orc st false = (st, false, 0) := by
          simp only [processGroup]
          rw [if_pos hemp]
        simp only [runCycleAux, hstep] at h ⊢
        exact ih st h
      · by_cases hmail : orc.emailSent
        · have hstep : processGroup e now g orc st false
              = (dictSet st g.id (dictGet st g.id ∪
                  newlyFoundIds (search_new_papers g.keywords
                    (dictGet st g.id) (search_window_of e) now orc.events)),
                 true, 1) := by
            simp only [processGroup]
            rw [if_neg hemp, if_pos hmail]
          obtain ⟨r, hr⟩ : ∃ r, r ∈ search_new_papers g.keywords
              (dictGet st g.id) (search_window_of e) now orc.events := by
            cases hq : search_new_papers g.keywords (dictGet st g.id)
                (search_window_of e) now orc.events with
            | nil => rw [hq] at hemp; exact absurd rfl hemp
            | cons a l => exact ⟨a, by simp [hq]⟩
          have hnotseen : paperId r.entry_id ∉ dictGet st g.id :=
            mem_search_not_seen _ _ _ _ _ r hr
          have hmem : paperId r.entry_id ∈ dictGet
              (dictSet st g.id (dictGet st g.id ∪
                newlyFoundIds (search_new_papers g.keywords (dictGet st g.id)
                  (search_window_of e) now orc.events))) g.id := by
            rw [dictGet_dictSet, if_pos rfl]
            refine Finset.mem_union_right _ ?_
            simp only [newlyFoundIds, List.mem_toFinset, List.mem_map]
            exact ⟨r, hr, rfl⟩
          have hfin := runCycleAux_mono e now rest _ true g.id
            (paperId r.entry_id) hmem
          refine ⟨g.id, ?_⟩
          simp only [runCycleAux, hstep]
          intro hcontra
          rw [hcontra] at hfin
          exact hnotseen hfin
        · have hstep : processGroup e now g orc st false = (st, false, 1) := by
            simp only [processGroup]
            rw [if_neg hemp, if_neg (by simpa using hmail)]
          simp only [runCycleAux, hstep] at h ⊢
          exact ih st h

/-- C1: for a group whose search yields a non-empty candidate list, the
cycle body calls the notifier exactly once (third component of
processGroup); if it succeeds the binding of the group becomes the union
of its previous seen set and the candidate ids and the state_changed
flag is set, and if it fails the whole state dict — in particular the
binding of the group — is exactly what it was before the call and the
flag is passed through. -/
theorem notify_success_advances_state (e : Bool) (now : Int) (g : GroupInfo)
    (orc : GroupOracle) (st : SeenState) (ch : Bool)
    (h : search_new_papers g.keywords (dictGet st g.id) (search_window_of e)
        now orc.events ≠ []) :
    (processGroup e now g orc st ch).2.2 = 1 ∧
    (orc.emailSent = true →
      processGroup e now g orc st ch
        = (dictSet st g.id (dictGet st g.id ∪
            newlyFoundIds (search_new_papers g.keywords (dictGet st g.id)
              (search_window_of e) now orc.events)), true, 1)) ∧
    (orc.emailSent = false →
      processGroup e now g orc st ch = (st, ch, 1)) := by
  have hiE : (search_new_papers g.keywords (dictGet st g.id)
      (search_window_of e) now orc.events).isEmpty = false := by
    cases hq : search_new_papers g.keywords (dictGet st g.id)
        (search_window_of e) now orc.events with
    | nil => exact absurd hq h
    | cons a l => rfl
  refine ⟨?_, ?_, ?_⟩
  · cases hmail : orc.emailSent <;> simp [processGroup, hiE, hmail]
  · intro hmail
    simp [processGroup, hiE, hmail]
  · intro hmail
    simp [processGroup, hiE, hmail]

/-- Witness for C1 at a concrete input: one fresh candidate, so the
notifier is invoked exactly once. -/
theorem notify_success_advances_state_witness :
    (processGroup true 100 ⟨"group_1", "KEYWORD_GROUP_1", ["x"], "x"⟩
        ⟨[some ⟨"a/1v1", "t", 100, 100⟩], true⟩ [] false).2.2 = 1 :=
  (notify_success_advances_state true 100
    ⟨"group_1", "KEYWORD_GROUP_1", ["x"], "x"⟩
    ⟨[some ⟨"a/1v1", "t", 100, 100⟩], true⟩ [] false (by decide)).1

/-- C4: seen sets only grow.  Starting any tail of the per-group loop
from any state and flag — so in particular after every state-modifying
step of the cycle — a paper id present in the binding of a group is still
present in that binding when the loop finishes. -/
theorem seen_ids_monotone (e : Bool) (now : Int)
    (gs : List (GroupInfo × GroupOracle)) (st : SeenState) (ch : Bool)
    (k pid : String) (h : pid ∈ dictGet st k) :
    pid ∈ dictGet (runCycleAux e now gs st ch).1 k :=
  runCycleAux_mono e now gs st ch k pid h

/-- Witness for C4 at a concrete input: id A survives a cycle that adds
a new paper to its group. -/
theorem seen_ids_monotone_witness :
    "A" ∈ dictGet (runCycleAux true 100
        [(⟨"group_1", "KEYWORD_GROUP_1", ["x"], "x"⟩,
          ⟨[some ⟨"a/1v1", "t", 100, 100⟩], true⟩)]
        [("group_1", ({"A"} : Finset String))] false).1 "group_1" :=
  seen_ids_monotone true 100
    [(⟨"group_1", "KEYWORD_GROUP_1", ["x"], "x"⟩,
      ⟨[some ⟨"a/1v1", "t", 100, 100⟩], true⟩)]
    [("group_1", ({"A"} : Finset String))] false "group_1" "A" (by decide)

/-- C9: when every search of the cycle comes back empty the cycle is a
no-op: the notifier is never called (zero send_email calls), the state
dict is returned unchanged with state_changed still false, and
save_state is not invoked (no file is written).  Moreover the write of
save_state happens at most once per cycle, only after the loop, and only
when the flag was set, in which case the final state differs from the
loaded one at some group. -/
theorem no_news_cycle_idempotent (e : Bool) (now : Int) (st0 : SeenState)
    (gs : List (GroupInfo × GroupOracle))
    (h : ∀ p ∈ gs, search_new_papers p.1.keywords (dictGet st0 p.1.id)
        (search_window_of e) now p.2.events = []) :
    runCycle e now st0 gs = (st0, false, 0) ∧
    cycleSavedFile e now st0 gs = none ∧
    (∀ (st1 : SeenState) (gs1 : List (GroupInfo × GroupOracle)),
      (runCycle e now st1 gs1).2.1 = true →
      ∃ k, dictGet (runCycle e now st1 gs1).1 k ≠ dictGet st1 k) := by
  have h1 : runCycle e now st0 gs = (st0, false, 0) :=
    runCycleAux_quiet e now gs st0 false h
  refine ⟨h1, ?_, ?_⟩
  · simp [cycleSavedFile, h1]
  · intro st1 gs1 hch
    exact runCycleAux_changed e now gs1 st1 hch

/-- Witness for C9 at a concrete input: a cycle whose only group gets no
results leaves the loaded state untouched. -/
theorem no_news_cycle_idempotent_witness :
    runCycle true 0 [("group_1", ({"A"} : Finset String))]
        [(⟨"group_1", "KEYWORD_GROUP_1", ["x"], "x"⟩, ⟨[], true⟩)]
      = ([("group_1", ({"A"} : Finset String))], false, 0) :=
  (no_news_cycle_idempotent true 0 [("group_1", ({"A"} : Finset String))]
    [(⟨"group_1", "KEYWORD_GROUP_1", ["x"], "x"⟩, ⟨[], true⟩)]
    (by decide)).1

/-- C10: the identifier of a candidate is the last slash-separated
segment of its entry link and keeps the arXiv version suffix; a result
whose id (so in particular a new version of an already seen paper) is
not in the seen set and is recent enough is returned by the search; and
on a successful notification the binding of the group becomes its seen
set united with exactly those last-segment ids. -/
theorem paper_id_last_segment_version :
    paperId "http://arxiv.org/abs/2301.12345v2" = "2301.12345v2" ∧
    (∀ (keywords : List String) (seen : Finset String) (r : ArxivResult)
        (window now : Int),
      (now - window ≤ r.published ∨ now - window ≤ r.updated) →
      paperId r.entry_id ∉ seen →
      r ∈ search_new_papers keywords seen window now [some r]) ∧
    (∀ (e : Bool) (now : Int) (g : GroupInfo) (orc : GroupOracle)
        (st : SeenState) (ch : Bool),
      search_new_papers g.keywords (dictGet st g.id) (search_window_of e)
          now orc.events ≠ [] →
      orc.emailSent = true →
      dictGet (processGroup e now g orc st ch).1 g.id
        = dictGet st g.id ∪
            ((search_new_papers g.keywords (dictGet st g.id)
                (search_window_of e) now orc.events).map
              (fun p => paperId p.entry_id)).toFinset) := by
  refine ⟨by decide, ?_, ?_⟩
  · intro keywords seen r window now h1 h2
    have hinc : includeCandidate (now - window) seen r = true := by
      simp only [includeCandidate, Bool.and_eq_true, Bool.or_eq_true,
        decide_eq_true_eq]
      exact ⟨h1, h2⟩
    simp [search_new_papers, searchLoop, hinc]
  · intro e now g orc st ch hne hmail
    have hiE : (search_new_papers g.keywords (dictGet st g.id)
        (search_window_of e) now orc.events).isEmpty = false := by
      cases hq : search_new_papers g.keywords (dictGet st g.id)
          (search_window_of e) now orc.events with
      | nil => exact absurd hq hne
      | cons a l => rfl
    simp [processGroup, hiE, hmail, dictGet_dictSet, newlyFoundIds]

/-- Witness for C10 at a concrete input: version v1 of a paper is in the
seen set, yet the v2 record is returned by the search because its id is
the last segment of the new link, version suffix included. -/
theorem paper_id_last_segment_version_witness :
    (⟨"http://arxiv.org/abs/2301.12345v2", "t", 100, 100⟩ : ArxivResult)
      ∈ search_new_papers ["k"] {"2301.12345v1"} 50 100
          [some ⟨"http://arxiv.org/abs/2301.12345v2", "t", 100, 100⟩] :=
  paper_id_last_segment_version.2.1 ["k"] {"2301.12345v1"}
    ⟨"http://arxiv.org/abs/2301.12345v2", "t", 100, 100⟩ 50 100
    (Or.inl (by decide)) (by decide)

/-- C7 counterexample: an environment in which SMTP_PORT is set to a
non-integer string makes the module-level configuration code raise an
uncaught ValueError (int of "abc"), so startup parsing does not complete
for every environment. -/
theorem smtp_port_crash_cex :
    (parseConfig [("SMTP_PORT", "abc")]).isOk = false := by decide

/-- C7 amended: keyword-group parsing and every other configuration read
never raise, so startup parsing completes for every environment except
exactly those in which a present SMTP_PORT value is not a valid integer
literal; and send_email with any missing or empty mail setting (or port
zero) returns false instead of raising. -/
theorem config_errors_degrade :
    (∀ env : List (String × String),
      (parseConfig env).isOk = true ∨ smtpPortOf env = none) ∧
    (∀ (subject body : String) (sender password receiver : Option String)
        (server : String) (port : Int) (outcome : SmtpOutcome),
      sender = none ∨ sender = some "" ∨ password = none ∨ password = some ""
        ∨ receiver = none ∨ receiver = some "" ∨ server = "" ∨ port = 0 →
      send_email subject body sender password receiver server port outcome
        = false) := by
  constructor
  · intro env
    cases h : smtpPortOf env with
    | none => exact Or.inr rfl
    | some p => exact Or.inl (by simp [parseConfig, h, Except.isOk, Except.toBool])
  · intro subject body sender password receiver server port outcome h
    rcases h with h | h | h | h | h | h | h | h <;>
      simp [send_email, truthy, h]

/-- Witness for C7 (amended) at a concrete input: a missing sender makes
send_email return false. -/
theorem config_errors_degrade_witness :
    send_email "s" "b" none (some "p") (some "r") "srv" 587
        SmtpOutcome.success = false :=
  config_errors_degrade.2 "s" "b" none (some "p") (some "r") "srv" 587
    SmtpOutcome.success (Or.inl rfl)

end PaperFinder
